import Mathlib

/-!
Shallow embedding of the rjob HTTP cron runner (Rust) for specification
verification. Each definition mirrors one item of the source:

* `src/models/http_job.rs`        → `HttpJob`
* `src/models/http_job_request.rs`→ `HttpJobRequest`
* `src/models/jobs.rs`            → `Jobs`
* `src/scheduler/cron_scheduler.rs` → `get_method`, `start_http_job`,
                                      `start_cron_scheduler`
* `src/configure/http_jobs.rs`    → `get_http_jobs`, `get_http_job_request`
* `src/configure/mod.rs`          → `resolve_timezone`, `init_read_jobs`

External crates (reqwest header validation, serde_json serialization,
chrono_tz timezone parsing, the network transport, uuid/time generation)
are parameters of the embedding: the functions here are parametrized over
them, so every theorem holds for all behaviours of those collaborators.
-/

namespace Rjob

/-- Model of `serde_json::Value`: the dynamically-typed configuration tree
produced by the external JSON/YAML loaders. Numbers are modelled as `Int`
(the claims only exercise unsigned integers via `as_u64`). -/
inductive Value where
  | null : Value
  | bool (b : Bool) : Value
  | num (n : Int) : Value
  | str (s : String) : Value
  | arr (elems : List Value) : Value
  | obj (fields : List (String × Value)) : Value

/-- First-match key lookup in a JSON object's field list. -/
def lookupField : List (String × Value) → String → Option Value
  | [], _ => none
  | (k, v) :: rest, key => if k = key then some v else lookupField rest key

/-- `Value::get(key)`: `Some` value of the key on objects, `None` otherwise. -/
def Value.get (v : Value) (key : String) : Option Value :=
  match v with
  | .obj fields => lookupField fields key
  | _ => none

/-- `Value::as_str`. -/
def Value.asStr : Value → Option String
  | .str s => some s
  | _ => none

/-- `Value::as_bool`. -/
def Value.asBool : Value → Option Bool
  | .bool b => some b
  | _ => none

/-- `Value::as_u64`: succeeds exactly on non-negative integers. -/
def Value.asU64 : Value → Option Nat
  | .num n => if 0 ≤ n then some n.toNat else none
  | _ => none

/-- `Value::as_array`. -/
def Value.asArray : Value → Option (List Value)
  | .arr elems => some elems
  | _ => none

/-- `Value::as_object`. -/
def Value.asObject : Value → Option (List (String × Value))
  | .obj fields => some fields
  | _ => none

/-- `Option::ok_or`: lift an `Option` into `Except` with the given error. -/
def okOr (o : Option α) (e : String) : Except String α :=
  match o with
  | some a => Except.ok a
  | none => Except.error e

/-- Model of `reqwest::header::HeaderMap` as an ordered multi-map
(the source only ever `append`s entries). -/
abbrev HeaderMap := List (String × String)

/-- `HttpJobRequest` (src/models/http_job_request.rs). -/
structure HttpJobRequest where
  url : String
  method : String
  headers : Option HeaderMap
  body : Option String
deriving DecidableEq

/-- `HttpJobRequest::new`. -/
def HttpJobRequest.new (url method : String) (headers : Option HeaderMap)
    (body : Option String) : HttpJobRequest :=
  ⟨url, method, headers, body⟩

/-- `HttpJob` (src/models/http_job.rs). `timeout` and `max_retry` are `u64`
in the source, modelled as `Nat`. -/
structure HttpJob where
  name : String
  enable : Bool
  cron : String
  timeout : Nat
  max_retry : Nat
  request : HttpJobRequest
deriving DecidableEq

/-- `HttpJob::new`. -/
def HttpJob.new (name : String) (enable : Bool) (cron : String)
    (timeout max_retry : Nat) (request : HttpJobRequest) : HttpJob :=
  ⟨name, enable, cron, timeout, max_retry, request⟩

/-- Model of `chrono_tz::Tz`: an IANA timezone, identified by its name.
Parsing a name into a `Tz` (`Tz::from_str`) is an external-crate operation
and is a parameter of the embedding (`Ext.tz_from_str`). -/
structure Tz where
  name : String
deriving DecidableEq

/-- `Tz::UTC`. -/
def Tz.UTC : Tz := ⟨"UTC"⟩

/-- `Jobs` (src/models/jobs.rs): the resolved registry — the single global
timezone plus the full job list (disabled jobs included). -/
structure Jobs where
  timezone : Tz
  http_jobs : List HttpJob
deriving DecidableEq

/-- `Jobs::new`. -/
def Jobs.new (timezone : Tz) (http_jobs : List HttpJob) : Jobs :=
  ⟨timezone, http_jobs⟩

/-- `reqwest::Method`: the HTTP methods the reqwest crate names. -/
inductive Method where
  | GET | POST | PUT | PATCH | DELETE | OPTIONS | HEAD
deriving DecidableEq

/-- Rust `str::to_lowercase()`: per-character lowercasing (the recognized
method names are pure ASCII, where simple lowercasing coincides with
`Char.toLower`). -/
def to_lowercase (s : String) : String :=
  String.mk (s.data.map Char.toLower)

/-- `get_method` (src/scheduler/cron_scheduler.rs lines 145-154): lowercase
the string and match it; anything not matched falls through to `GET`. -/
def get_method (method : String) : Method :=
  match to_lowercase method with
  | "get" => Method.GET
  | "post" => Method.POST
  | "put" => Method.PUT
  | "options" => Method.OPTIONS
  | "delete" => Method.DELETE
  | _ => Method.GET

/-- Decidable equality for `Except`, used by the derived instances of the
result types below. -/
instance {ε α : Type} [DecidableEq ε] [DecidableEq α] :
    DecidableEq (Except ε α) := fun a b =>
  match a, b with
  | Except.ok x, Except.ok y => decidable_of_iff (x = y) (by simp)
  | Except.ok _, Except.error _ => isFalse (by simp)
  | Except.error _, Except.ok _ => isFalse (by simp)
  | Except.error x, Except.error y => decidable_of_iff (x = y) (by simp)

/-- Outcome of a single `request_builder.send().await` as the executor sees
it: either an HTTP response — any status, together with the result the
later `resp.text().await` read will produce, which can itself fail at the
transport level (e.g. the connection drops mid-body) — or a
transport-level error of the send itself (`reqwest::Error`). -/
inductive SendResult where
  | response (status : Nat) (text : Except String String) : SendResult
  | transport_error (err : String) : SendResult
deriving DecidableEq

/-- `StatusCode::is_success`: 2xx. -/
def is_success (status : Nat) : Bool :=
  200 ≤ status && status < 300

/-- Structured form of the `println!` records of `start_http_job`, one
constructor per line, each carrying the per-firing uuid and timestamp the
source prefixes every line with. -/
inductive LogLine where
  | job_start (uuid time name : String) : LogLine
  | job_dump (uuid time : String) (job : HttpJob) : LogLine
  | request_success (uuid time name : String) : LogLine
  | http_response (uuid time body : String) : LogLine
  | request_failed_status (uuid time name : String) (status : Nat) : LogLine
  | request_failed_transport (uuid time name err : String) : LogLine
  | job_end (uuid time name : String) : LogLine
deriving DecidableEq

/-- Final outcome of one firing, as distinguished by the source's match on
the send result and on `resp.status().is_success()`. `aborted` is the
`resp.text().await.unwrap()` panic (cron_scheduler.rs lines 114 and 117):
a failed body read panics the spawned task, which therefore never reaches
the firing-end println at line 125. -/
inductive FiringOutcome where
  | success : FiringOutcome
  | failed_status (status : Nat) : FiringOutcome
  | failed_transport (err : String) : FiringOutcome
  | aborted (err : String) : FiringOutcome
deriving DecidableEq

/-- Did the firing abort in the body-read unwrap panic? -/
def FiringOutcome.is_aborted : FiringOutcome → Bool
  | FiringOutcome.aborted _ => true
  | _ => false

/-- Observable result of one firing: how many times `send()` was invoked,
the log records in emission order, and the outcome. -/
structure FiringResult where
  attempts : Nat
  logs : List LogLine
  outcome : FiringOutcome
deriving DecidableEq

/-- Settings carried by the `reqwest::Client` the executor builds
(src/scheduler/cron_scheduler.rs lines 86-89): only a user agent is
configured; no timeout is ever set, so `timeout = none` (the reqwest
default of no client-level timeout). -/
structure ClientConfig where
  user_agent : String
  timeout : Option Nat
deriving DecidableEq

/-- `reqwest::Client::builder().user_agent("rjob").build()`. -/
def build_client : ClientConfig :=
  ⟨"rjob", none⟩

/-- Settings carried by the request the executor builds (lines 92-104):
method, url, the job's explicit headers, the Content-Type header plus body
when a body is present, and the per-request timeout (never set). -/
structure RequestConfig where
  method : Method
  url : String
  headers : HeaderMap
  body : Option String
  timeout : Option Nat
deriving DecidableEq

/-- Request construction of `start_http_job` (lines 82-104): resolve the
method, take the url verbatim, apply explicit headers if present, and if a
body is present add `Content-Type: application/json` and attach the body.
No timeout is applied at any step. -/
def build_request (http_job : HttpJob) : RequestConfig :=
  let request := http_job.request
  let rb : RequestConfig :=
    ⟨get_method request.method, request.url, [], none, none⟩
  let rb :=
    match request.headers with
    | some headers => { rb with headers := headers }
    | none => rb
  match request.body with
  | some body =>
      { rb with
        headers := rb.headers ++ [("Content-Type", "application/json")],
        body := some body }
  | none => rb

/-- `start_http_job` (src/scheduler/cron_scheduler.rs lines 75-126).
`uuid` and `local_time` are the externally generated correlation id and
timestamp; `transport` gives the result of the n-th `send()` call. The
source body is straight-line: two start records, one single `send()`
(consuming `transport 0`), a match on the result, and the end record. It
never reads `http_job.max_retry` or `http_job.timeout`. In both response
branches the success / failed-with-status record is printed first and
`resp.text().await.unwrap()` is evaluated second: when the body read
fails, the unwrap panics and the task aborts before any further record —
in particular before the firing-end record of line 125. -/
def start_http_job (uuid local_time : String) (http_job : HttpJob)
    (transport : Nat → SendResult) : FiringResult :=
  let first_logs := [LogLine.job_start uuid local_time http_job.name,
                     LogLine.job_dump uuid local_time http_job]
  match transport 0 with
  | SendResult.response status text =>
      if is_success status then
        match text with
        | Except.ok body =>
            ⟨1,
             first_logs ++ [LogLine.request_success uuid local_time http_job.name,
                            LogLine.http_response uuid local_time body,
                            LogLine.job_end uuid local_time http_job.name],
             FiringOutcome.success⟩
        | Except.error err =>
            ⟨1,
             first_logs ++ [LogLine.request_success uuid local_time http_job.name],
             FiringOutcome.aborted err⟩
      else
        match text with
        | Except.ok body =>
            ⟨1,
             first_logs ++ [LogLine.request_failed_status uuid local_time http_job.name status,
                            LogLine.http_response uuid local_time body,
                            LogLine.job_end uuid local_time http_job.name],
             FiringOutcome.failed_status status⟩
        | Except.error err =>
            ⟨1,
             first_logs ++ [LogLine.request_failed_status uuid local_time http_job.name status],
             FiringOutcome.aborted err⟩
  | SendResult.transport_error err =>
      ⟨1,
       first_logs ++ [LogLine.request_failed_transport uuid local_time http_job.name err,
                      LogLine.job_end uuid local_time http_job.name],
       FiringOutcome.failed_transport err⟩

/-- Which clock a `tokio_cron::Scheduler` evaluates cron expressions
against. `local_time` is `Scheduler::local()` (the host machine's local
time), `utc_time` is `Scheduler::utc()`; `registry_timezone` is the
hypothetical scheduler the specification describes, one driven by the Job
Registry's configured timezone — no constructor of the source builds it. -/
inductive SchedulerClock where
  | local_time : SchedulerClock
  | utc_time : SchedulerClock
  | registry_timezone (tz : Tz) : SchedulerClock
deriving DecidableEq

/-- One `Job::new_sync(&it.cron, …)` entry added to the scheduler: its cron
expression and the job whose `start_http_job` the closure spawns. -/
structure SchedulerEntry where
  cron : String
  job : HttpJob
deriving DecidableEq

/-- The configured `tokio_cron::Scheduler`: its clock and its entries. -/
structure Scheduler where
  clock : SchedulerClock
  entries : List SchedulerEntry
deriving DecidableEq

/-- The scheduling loop of `start_cron_scheduler`
(src/scheduler/cron_scheduler.rs lines 37-47): for each job in order, add
an entry exactly when `it.enable` holds. -/
def schedule_jobs : List HttpJob → List SchedulerEntry
  | [] => []
  | it :: rest =>
      if it.enable then ⟨it.cron, it⟩ :: schedule_jobs rest
      else schedule_jobs rest

/-- `start_cron_scheduler` (src/scheduler/cron_scheduler.rs lines 26-48)
after the job list has been obtained: `Scheduler::local()` is created and
the enabled jobs are added. The function never receives or reads a
timezone. -/
def start_cron_scheduler (http_jobs : List HttpJob) : Scheduler :=
  ⟨SchedulerClock.local_time, schedule_jobs http_jobs⟩

/-- Operations of external crates the configuration loader calls into:
`HeaderName::try_from` / `HeaderValue::try_from` (reqwest, may reject a
name or value), `serde_json::to_string` on an object, and
`chrono_tz::Tz::from_str`. The embedding is parametric in them. -/
structure Ext where
  header_name_try_from : String → Except String String
  header_value_try_from : String → Except String String
  json_to_string : List (String × Value) → Except String String
  tz_from_str : String → Option Tz

/-- The header-building closure of `get_http_job_request`
(src/configure/http_jobs.rs lines 115-127): fold the JSON object into a
`HeaderMap`, validating each name, requiring each value to be a string,
validating it, and appending. -/
def build_header_map (ext : Ext) : List (String × Value) → HeaderMap →
    Except String HeaderMap
  | [], acc => Except.ok acc
  | (k, v) :: rest, acc => do
      let k ← ext.header_name_try_from k
      let v ← okOr v.asStr "The value of the header must be a string."
      let v ← ext.header_value_try_from v
      build_header_map ext rest (acc ++ [(k, v)])

/-- `get_http_job_request` (src/configure/http_jobs.rs lines 101-138):
url required string; method defaults to "GET"; headers parsed through
`build_header_map` when the field is an object, absent otherwise; body
serialized back to a string when the field is an object, absent
otherwise (`.and_then(as_object)` drops any non-object body). -/
def get_http_job_request (ext : Ext) (value : Value) :
    Except String HttpJobRequest := do
  let request ← okOr (value.get "request")
    "The request field is required in the JSON value."
  let url ← okOr ((request.get "url").bind Value.asStr)
    "The url field is required and must be a string."
  let method := ((request.get "method").bind Value.asStr).getD "GET"
  let headers : Option HeaderMap ←
    match (request.get "headers").bind Value.asObject with
    | some map => do
        let header_map ← build_header_map ext map []
        pure (some header_map)
    | none => pure none
  let body : Option String ←
    match (request.get "body").bind Value.asObject with
    | some body =>
        match ext.json_to_string body with
        | Except.ok s => pure (some s)
        | Except.error _ => Except.error "Error parsing request body."
    | none => pure none
  Except.ok (HttpJobRequest.new url method headers body)

/-- The per-entry body of the loop of `get_http_jobs`
(src/configure/http_jobs.rs lines 37-64), applied to each array element in
order: name and cron required strings; enable defaults to true; timeout
defaults to 5000; max_retry defaults to 3; the request is parsed by
`get_http_job_request`. -/
def parse_http_job_list (ext : Ext) : List Value → Except String (List HttpJob)
  | [] => Except.ok []
  | it :: rest => do
      let name ← okOr ((it.get "name").bind Value.asStr)
        "The name field is missing or not a string."
      let enable := ((it.get "enable").bind Value.asBool).getD true
      let cron ← okOr ((it.get "cron").bind Value.asStr)
        "The cron field is missing or not a string."
      let timeout := ((it.get "timeout").bind Value.asU64).getD 5000
      let max_retry := ((it.get "max_retry").bind Value.asU64).getD 3
      let request ← get_http_job_request ext it
      let http_job := HttpJob.new name enable cron timeout max_retry request
      let tail ← parse_http_job_list ext rest
      Except.ok (http_job :: tail)

/-- `get_http_jobs` (src/configure/http_jobs.rs lines 28-67): the
`http_jobs` field must exist and be an array; its elements are parsed in
order, the first failure aborting the whole parse. -/
def get_http_jobs (ext : Ext) (value : Value) : Except String (List HttpJob) := do
  let http_jobs_val ← okOr (value.get "http_jobs")
    "The http_jobs field is missing in the JSON configuration."
  let http_jobs_val ← okOr http_jobs_val.asArray
    "The http_jobs field must be an array in the JSON configuration."
  parse_http_job_list ext http_jobs_val

/-- The timezone-resolution fragment of `init_read_jobs`
(src/configure/mod.rs lines 60-71). The input is
`value.get("timezone").and_then(as_str)`; an absent field notes the UTC
default, an unparseable name warns and degrades to `Tz::UTC`. The
function is total: no branch aborts the process. Returns the resolved
timezone and the diagnostic lines printed. -/
def resolve_timezone (ext : Ext) (field : Option String) : Tz × List String :=
  let step :=
    match field with
    | some s => (s, ([] : List String))
    | none => ("UTC", ["No timezone specified. Using UTC as default."])
  match ext.tz_from_str step.1 with
  | some tz => (tz, step.2)
  | none => (Tz.UTC, step.2 ++ ["Invalid timezone specified. Using UTC as default."])

/-- Result of `init_read_jobs`: either `process::exit(1)` was reached after
printing the given message, or a registry was produced (with the timezone
diagnostics printed along the way). -/
inductive InitResult where
  | exited (msg : String) : InitResult
  | ok (jobs : Jobs) (msgs : List String) : InitResult
deriving DecidableEq

/-- `init_read_jobs` (src/configure/mod.rs lines 54-89): on a read/parse
failure of the configuration the process exits; otherwise the timezone is
resolved (never fatally), the jobs are parsed with failures degraded to an
empty list (`unwrap_or(vec![])`), a zero job count exits, and otherwise
`Jobs::new(timezone, http_jobs)` is returned. -/
def init_read_jobs (ext : Ext) (config : Except String Value) : InitResult :=
  match config with
  | Except.error e => InitResult.exited ("Failed to read configure file: " ++ e)
  | Except.ok value =>
    let tzr := resolve_timezone ext ((value.get "timezone").bind Value.asStr)
    let http_jobs :=
      match get_http_jobs ext value with
      | Except.ok jobs => jobs
      | Except.error _ => []
    if http_jobs.length = 0 then
      InitResult.exited "No jobs found in the jobs file."
    else
      InitResult.ok (Jobs.new tzr.1 http_jobs) tzr.2

/-- Does a scheduler clock consult the registry's configured timezone? -/
def SchedulerClock.uses_registry_timezone : SchedulerClock → Bool
  | SchedulerClock.registry_timezone _ => true
  | _ => false

/-- A concrete job with the default retry budget `max_retry = 3`. -/
def jobRetry3 : HttpJob :=
  HttpJob.new "job-a" true "* * * * * *" 5000 3
    (HttpJobRequest.new "http://example.com/ping" "GET" none none)

/-- A concrete job configured with `max_retry = 0`. -/
def jobRetry0 : HttpJob :=
  HttpJob.new "job-b" true "*/5 * * * * *" 5000 0
    (HttpJobRequest.new "http://example.com/h" "POST" none none)

/-- A concrete disabled job. -/
def jobDisabled : HttpJob :=
  HttpJob.new "job-off" false "* * * * * *" 5000 3
    (HttpJobRequest.new "http://example.com/off" "GET" none none)

/-- A transport that fails at the transport level on its first two sends
and delivers HTTP 200 on the third. -/
def fail_twice_then_ok : Nat → SendResult :=
  fun n => if n < 2 then SendResult.transport_error "connection refused"
           else SendResult.response 200 (Except.ok "ok")

/-- A transport that always delivers HTTP 200 with a readable body. -/
def always_ok : Nat → SendResult :=
  fun _ => SendResult.response 200 (Except.ok "ok")

/-- A transport that always delivers HTTP 500 with a readable body. -/
def always_500 : Nat → SendResult :=
  fun _ => SendResult.response 500 (Except.ok "boom")

/-- A concrete instantiation of the external-crate operations: header
names and values accepted verbatim, a trivial serializer, and a timezone
parser that recognizes no name (as `Tz::from_str` behaves on any invalid
IANA identifier). -/
def ext0 : Ext :=
  ⟨fun s => Except.ok s, fun s => Except.ok s,
   fun _ => Except.ok "", fun _ => none⟩

/-- A minimal job definition: only `name`, `cron` and `request.url`. -/
def mk_minimal_job (name cron url : String) : Value :=
  Value.obj [("name", Value.str name), ("cron", Value.str cron),
             ("request", Value.obj [("url", Value.str url)])]

/-- A configuration holding exactly one minimal job definition. -/
def mk_minimal_config (name cron url : String) : Value :=
  Value.obj [("http_jobs", Value.arr [mk_minimal_job name cron url])]

/-- A registry whose configured timezone is Asia/Shanghai. -/
def registryC4 : Jobs :=
  Jobs.new ⟨"Asia/Shanghai"⟩ [jobRetry3]

/-- A configuration with an invalid timezone and one minimal job. -/
def configBadTz : Value :=
  Value.obj [("timezone", Value.str "Mars/Phobos"),
             ("http_jobs", Value.arr [mk_minimal_job "j" "* * * * * *" "http://example.com"])]

/-- A request definition whose body is a JSON string, not an object. -/
def mk_request_with_body (url : String) (body : Value) : Value :=
  Value.obj [("request", Value.obj [("url", Value.str url), ("body", body)])]

/-- Claim C1 as stated is false on the code: with max_retry = 3 and a
transport that fails at the transport level twice and then succeeds, the
executor performs exactly 1 send attempt (not 3) and the firing ends as a
transport failure (not as a success after the 3rd attempt). -/
theorem C1_counterexample :
    jobRetry3.max_retry = 3 ∧
    fail_twice_then_ok 0 = SendResult.transport_error "connection refused" ∧
    fail_twice_then_ok 1 = SendResult.transport_error "connection refused" ∧
    fail_twice_then_ok 2 = SendResult.response 200 (Except.ok "ok") ∧
    (start_http_job "uuid" "time" jobRetry3 fail_twice_then_ok).attempts = 1 ∧
    (start_http_job "uuid" "time" jobRetry3 fail_twice_then_ok).outcome
      = FiringOutcome.failed_transport "connection refused" :=
  ⟨rfl, rfl, rfl, rfl, rfl, rfl⟩

/-- Claim C1 (amended): the executor performs exactly one send attempt per
firing regardless of max_retry; if that attempt fails at the transport
level, the failure is logged and the firing immediately ends as a failure,
with no retry. -/
theorem C1_theorem (uuid time : String) (job : HttpJob)
    (transport : Nat → SendResult) (err : String)
    (h : transport 0 = SendResult.transport_error err) :
    (start_http_job uuid time job transport).attempts = 1 ∧
    (start_http_job uuid time job transport).outcome
      = FiringOutcome.failed_transport err ∧
    (start_http_job uuid time job transport).logs
      = [LogLine.job_start uuid time job.name,
         LogLine.job_dump uuid time job,
         LogLine.request_failed_transport uuid time job.name err,
         LogLine.job_end uuid time job.name] := by
  simp [start_http_job, h]

/-- Claim C1 witness: the amended theorem applied to a concrete job and
transport. -/
theorem C1_witness :
    (start_http_job "u" "t" jobRetry3 fail_twice_then_ok).attempts = 1 :=
  ( C1_theorem "u" "t" jobRetry3 fail_twice_then_ok "connection refused" rfl).1

/-- Claim C2 as stated is false on the code: a job with max_retry = 0
still causes exactly one send attempt (the executor never reads
max_retry), not zero. -/
theorem C2_counterexample :
    jobRetry0.max_retry = 0 ∧
    (start_http_job "uuid" "time" jobRetry0 always_ok).attempts = 1 :=
  ⟨rfl, rfl⟩

/-- Claim C2 (amended): a firing with max_retry = 0 performs exactly one
send attempt, like every other firing (max_retry is ignored); the
firing-start marker is emitted, and the firing-end marker is emitted in
every firing that does not abort in the response-body unwrap panic
(lines 114/117) — that is, on a transport error of the send or on a
response whose body reads successfully. -/
theorem C2_theorem (uuid time : String) (job : HttpJob)
    (transport : Nat → SendResult) (h : job.max_retry = 0) :
    (start_http_job uuid time job transport).attempts = 1 ∧
    LogLine.job_start uuid time job.name
      ∈ (start_http_job uuid time job transport).logs ∧
    ((start_http_job uuid time job transport).outcome.is_aborted = false →
      LogLine.job_end uuid time job.name
        ∈ (start_http_job uuid time job transport).logs) := by
  unfold start_http_job
  cases h0 : transport 0 with
  | response status text =>
      by_cases hs : is_success status <;> cases text <;>
        simp [hs, FiringOutcome.is_aborted]
  | transport_error err => simp [FiringOutcome.is_aborted]

/-- Claim C2 witness: the amended theorem applied to a concrete
max_retry = 0 job and a non-aborting transport. -/
theorem C2_witness :
    (start_http_job "u" "t" jobRetry0 always_ok).attempts = 1 ∧
    LogLine.job_end "u" "t" jobRetry0.name
      ∈ (start_http_job "u" "t" jobRetry0 always_ok).logs :=
  ⟨( C2_theorem "u" "t" jobRetry0 always_ok rfl).1,
   ( C2_theorem "u" "t" jobRetry0 always_ok rfl).2.2 rfl⟩

/-- Claim C3 as stated is false on the code: for a job whose configured
timeout is 5000, neither the client the executor builds nor the request
carries any timeout. -/
theorem C3_counterexample :
    jobRetry3.timeout = 5000 ∧
    build_client.timeout = none ∧
    (build_request jobRetry3).timeout = none :=
  ⟨rfl, rfl, rfl⟩

/-- Claim C3 (amended): the executor builds the client with only a user
agent and no timeout, the request carries no timeout either, and request
construction is independent of the job's configured timeout, which is
never read. -/
theorem C3_theorem (job : HttpJob) (t : Nat) :
    build_client.timeout = none ∧
    (build_request job).timeout = none ∧
    build_request { job with timeout := t } = build_request job := by
  refine ⟨rfl, ?_, rfl⟩
  unfold build_request
  cases h1 : job.request.headers <;> cases h2 : job.request.body <;> simp [h1, h2]

/-- Claim C4 as stated is false on the code: the scheduler built for a
registry configured with the Asia/Shanghai timezone evaluates cron
expressions against the host-local clock (tokio_cron Scheduler::local()),
which is not the registry's configured timezone. -/
theorem C4_counterexample :
    registryC4.timezone = ⟨"Asia/Shanghai"⟩ ∧
    (start_cron_scheduler registryC4.http_jobs).clock = SchedulerClock.local_time ∧
    (start_cron_scheduler registryC4.http_jobs).clock.uses_registry_timezone = false :=
  ⟨rfl, rfl, rfl⟩

/-- Claim C4 (amended): for every registry, the scheduler evaluates cron
expressions against the host machine's local clock; it never consults the
registry's configured timezone (which start_cron_scheduler does not even
receive). -/
theorem C4_theorem (registry : Jobs) :
    (start_cron_scheduler registry.http_jobs).clock = SchedulerClock.local_time ∧
    (start_cron_scheduler registry.http_jobs).clock.uses_registry_timezone = false :=
  ⟨rfl, rfl⟩

/-- Claim C5 as stated is false on the code: PATCH and HEAD are not in the
recognized set of get_method; both resolve to GET in any casing. -/
theorem C5_counterexample :
    get_method "PATCH" = Method.GET ∧
    get_method "HEAD" = Method.GET ∧
    get_method "patch" = Method.GET ∧
    get_method "head" = Method.GET :=
  ⟨by decide, by decide, rfl, rfl⟩

/-- Claim C5 (amended): method resolution is case-insensitive over the
recognized set GET, POST, PUT, OPTIONS, DELETE only; PATCH, HEAD and
every other unrecognized value resolve to GET. -/
theorem C5_theorem (s : String) :
    (to_lowercase s = "get" → get_method s = Method.GET) ∧
    (to_lowercase s = "post" → get_method s = Method.POST) ∧
    (to_lowercase s = "put" → get_method s = Method.PUT) ∧
    (to_lowercase s = "options" → get_method s = Method.OPTIONS) ∧
    (to_lowercase s = "delete" → get_method s = Method.DELETE) ∧
    (to_lowercase s ∉ (["get", "post", "put", "options", "delete"] : List String) →
      get_method s = Method.GET) := by
  refine ⟨fun h => by simp [get_method, h], fun h => by simp [get_method, h],
          fun h => by simp [get_method, h], fun h => by simp [get_method, h],
          fun h => by simp [get_method, h], fun h => ?_⟩
  unfold get_method
  split
  · rfl
  · rename_i heq; exact absurd (by simp [heq]) h
  · rename_i heq; exact absurd (by simp [heq]) h
  · rename_i heq; exact absurd (by simp [heq]) h
  · rename_i heq; exact absurd (by simp [heq]) h
  · rfl

/-- Claim C5 witness: the amended theorem applied to a recognized method
in upper case and to an unrecognized method. -/
theorem C5_witness :
    get_method "POST" = Method.POST ∧ get_method "XPATCH" = Method.GET :=
  ⟨( C5_theorem "POST").2.1 (by decide),
   ( C5_theorem "XPATCH").2.2.2.2.2 (by decide)⟩

/-- Claim C6: when the single send attempt completes with any HTTP
response, exactly one attempt occurs whatever the later body read does;
the status code only selects the success log record (2xx) or the
failure-with-status record — both printed before the body read — never a
retry; and whenever the body reads successfully, the outcome is success
for 2xx and failed-with-status otherwise. -/
theorem C6_theorem (uuid time : String) (job : HttpJob)
    (transport : Nat → SendResult) (status : Nat) (text : Except String String)
    (h : transport 0 = SendResult.response status text) :
    (start_http_job uuid time job transport).attempts = 1 ∧
    (is_success status = true →
      LogLine.request_success uuid time job.name
        ∈ (start_http_job uuid time job transport).logs) ∧
    (is_success status = false →
      LogLine.request_failed_status uuid time job.name status
        ∈ (start_http_job uuid time job transport).logs) ∧
    (∀ body, text = Except.ok body →
      (is_success status = true →
        (start_http_job uuid time job transport).outcome = FiringOutcome.success) ∧
      (is_success status = false →
        (start_http_job uuid time job transport).outcome
          = FiringOutcome.failed_status status)) := by
  unfold start_http_job
  rw [h]
  by_cases hs : is_success status <;> cases text <;>
    refine ⟨?_, fun h1 => ?_, fun h2 => ?_, fun body hb => ⟨fun h3 => ?_, fun h4 => ?_⟩⟩ <;>
    simp_all

/-- Claim C6 witness: a transport that always answers HTTP 500 with a
readable body yields one attempt and a failed-with-status outcome. -/
theorem C6_witness :
    (start_http_job "u" "t" jobRetry3 always_500).attempts = 1 ∧
    (start_http_job "u" "t" jobRetry3 always_500).outcome
      = FiringOutcome.failed_status 500 := by
  have h := C6_theorem "u" "t" jobRetry3 always_500 500 (Except.ok "boom") rfl
  exact ⟨h.1, (h.2.2.2 "boom" rfl).2 (by decide)⟩

/-- Every entry the scheduling loop adds comes from a job with
enable = true. -/
theorem schedule_jobs_enable (jobs : List HttpJob) :
    ∀ entry ∈ schedule_jobs jobs, entry.job.enable = true := by
  induction jobs with
  | nil => intro entry h; cases h
  | cons it rest ih =>
      intro entry h
      unfold schedule_jobs at h
      by_cases he : it.enable = true
      · simp [he] at h
        rcases h with h | h
        · subst h; exact he
        · exact ih entry h
      · simp [he] at h
        exact ih entry h

/-- Claim C7: a disabled job is never dispatched — every scheduler entry
belongs to an enabled job, so no entry can be the disabled job — while the
job remains part of the registry. -/
theorem C7_theorem (tz : Tz) (jobs : List HttpJob) (job : HttpJob)
    (hmem : job ∈ jobs) (hdis : job.enable = false) :
    job ∈ (Jobs.new tz jobs).http_jobs ∧
    ∀ entry ∈ (start_cron_scheduler jobs).entries, entry.job ≠ job := by
  refine ⟨hmem, fun entry he heq => ?_⟩
  have henable := schedule_jobs_enable jobs entry he
  rw [heq, hdis] at henable
  exact Bool.noConfusion henable

/-- Claim C7 witness: the theorem applied to a concrete registry holding
one disabled job. -/
theorem C7_witness :
    jobDisabled ∈ (Jobs.new ⟨"UTC"⟩ [jobDisabled]).http_jobs :=
  ( C7_theorem ⟨"UTC"⟩ [jobDisabled] jobDisabled (by simp) rfl).1

/-- Claim C8: decoding a minimal job definition (only name, cron and
request.url) yields enable = true, timeout = 5000 (the per-attempt timeout
in milliseconds), max_retry = 3 and method "GET", for every choice of
name, cron, url and of the external crate operations. -/
theorem C8_theorem (ext : Ext) (name cron url : String) :
    get_http_jobs ext (mk_minimal_config name cron url)
      = Except.ok [HttpJob.new name true cron 5000 3
          (HttpJobRequest.new url "GET" none none)] :=
  rfl

/-- Claim C9: a present-but-invalid timezone resolves to UTC with a
warning, and registry initialization still succeeds (no abort) whenever
the configuration and jobs are otherwise well-formed. -/
theorem C9_theorem (ext : Ext) (s : String) (h : ext.tz_from_str s = none) :
    resolve_timezone ext (some s)
      = (Tz.UTC, ["Invalid timezone specified. Using UTC as default."]) ∧
    ∀ (value : Value) (jobs : List HttpJob),
      (value.get "timezone").bind Value.asStr = some s →
      get_http_jobs ext value = Except.ok jobs →
      0 < jobs.length →
      init_read_jobs ext (Except.ok value)
        = InitResult.ok (Jobs.new Tz.UTC jobs)
            ["Invalid timezone specified. Using UTC as default."] := by
  constructor
  · simp [resolve_timezone, h]
  · intro value jobs hv hjobs hlen
    simp [init_read_jobs, hv, hjobs, resolve_timezone, h,
          Nat.pos_iff_ne_zero.mp hlen]

/-- Claim C9 witness: the theorem applied to a concrete configuration with
the invalid timezone Mars/Phobos and one minimal job. -/
theorem C9_witness :
    init_read_jobs ext0 (Except.ok configBadTz)
      = InitResult.ok
          (Jobs.new Tz.UTC [HttpJob.new "j" true "* * * * * *" 5000 3
            (HttpJobRequest.new "http://example.com" "GET" none none)])
          ["Invalid timezone specified. Using UTC as default."] :=
  (C9_theorem ext0 "Mars/Phobos" rfl).2 configBadTz
    [HttpJob.new "j" true "* * * * * *" 5000 3
      (HttpJobRequest.new "http://example.com" "GET" none none)]
    rfl rfl (by decide)

/-- Claim C10: a request whose body field is not a JSON object parses
successfully with body = none — the non-object body is silently dropped,
for every external crate behaviour. -/
theorem C10_theorem (ext : Ext) (url : String) (body : Value)
    (h : body.asObject = none) :
    get_http_job_request ext (mk_request_with_body url body)
      = Except.ok (HttpJobRequest.new url "GET" none none) := by
  cases body <;> first
    | rfl
    | simp [Value.asObject] at h

/-- Claim C10 witness: the theorem applied to a string body, a number body
and an array body. -/
theorem C10_witness :
    get_http_job_request ext0 (mk_request_with_body "http://example.com" (Value.str "text"))
      = Except.ok (HttpJobRequest.new "http://example.com" "GET" none none) ∧
    get_http_job_request ext0 (mk_request_with_body "http://example.com" (Value.num 7))
      = Except.ok (HttpJobRequest.new "http://example.com" "GET" none none) ∧
    get_http_job_request ext0 (mk_request_with_body "http://example.com" (Value.arr []))
      = Except.ok (HttpJobRequest.new "http://example.com" "GET" none none) :=
  ⟨C10_theorem ext0 "http://example.com" (Value.str "text") rfl,
   C10_theorem ext0 "http://example.com" (Value.num 7) rfl,
   C10_theorem ext0 "http://example.com" (Value.arr []) rfl⟩

end Rjob
